import Mathlib

/-!
# Verification of the Instagram MCP server's call handler

Shallow embedding of `src/server.ts` (the production MCP server wrapper of
`instagram-server-next-mcp`): the `get_instagram_posts` tool-call handler,
its argument validation (`isValidFetchArgs`), the pagination envelope it
builds, its soft-error translation, and the progress-notification callback.

The `InstagramService.fetchPosts` engine is an external collaborator here
(its source is not part of the visible tree); the handler is therefore
parameterised by an arbitrary fetch service.  The unbounded ("all") fetch
loop needed by one property is modelled from the specification's §4.1
contract, and is clearly marked as such.
-/

namespace InstagramMCP

/-- JavaScript runtime values as they can appear in a field of the
tool-call `arguments` object.  Numbers are embedded as integers (the
handler only performs integer cursor arithmetic on them). -/
inductive JsVal where
  | str (s : String)
  | num (n : Int)
  | boolean (b : Bool)
  | null
deriving DecidableEq, Repr

/-- The `request.params.arguments` value: either not an object (including
`null`), or an object with the three fields the handler reads; `none`
models an absent / `undefined` field. -/
inductive JsArgs where
  | notObject
  | object (username : Option JsVal) (limit : Option JsVal) (startFrom : Option JsVal)
deriving DecidableEq, Repr

/-- `typeof args.username === 'string'` (server.ts line 161). -/
def validUsernameField : Option JsVal → Bool
  | some (JsVal.str _) => true
  | _ => false

/-- `args.limit === undefined || typeof args.limit === 'number' || args.limit === 'all'`
(server.ts lines 162–164, with the early-return negation unfolded). -/
def validLimitField : Option JsVal → Bool
  | none => true
  | some (JsVal.num _) => true
  | some v => v == JsVal.str "all"

/-- `args.startFrom === undefined || typeof args.startFrom === 'number'`
(server.ts lines 165–166). -/
def validStartFromField : Option JsVal → Bool
  | none => true
  | some (JsVal.num _) => true
  | _ => false

/-- `isValidFetchArgs` (server.ts lines 155–168): `args` must be a
non-null object, `username` a string, `limit` absent, a number or the
literal string `"all"`, and `startFrom` absent or a number. -/
def isValidFetchArgs : JsArgs → Bool
  | JsArgs.notObject => false
  | JsArgs.object u l s => validUsernameField u && validLimitField l && validStartFromField s

/-- Field accessor: `args.username` of an object, `none` otherwise. -/
def usernameOf : JsArgs → Option JsVal
  | JsArgs.notObject => none
  | JsArgs.object u _ _ => u

/-- Field accessor: `args.limit` of an object, `none` otherwise. -/
def limitOf : JsArgs → Option JsVal
  | JsArgs.notObject => none
  | JsArgs.object _ l _ => l

/-- Field accessor: `args.startFrom` of an object, `none` otherwise. -/
def startFromOf : JsArgs → Option JsVal
  | JsArgs.notObject => none
  | JsArgs.object _ _ s => s

/-- The string payload of a validated `username` field (validation
guarantees the field is `some (JsVal.str _)`; the default is unreachable
after `isValidFetchArgs` holds). -/
def usernameStringOf (args : JsArgs) : String :=
  match usernameOf args with
  | some (JsVal.str s) => s
  | _ => ""

/-- `args.startFrom || 0` (server.ts lines 130, 131, 134): JavaScript
`||` yields `0` when `startFrom` is absent; a numeric `startFrom` of `0`
is falsy, but `0 || 0 = 0`, so on validated arguments the expression is
the number itself, defaulting to `0`. -/
def jsOrZero : Option JsVal → Int
  | some (JsVal.num n) => n
  | _ => 0

/-- Post records are opaque to the handler (shape owned by the extractor);
only their count and order matter, so an abstract token suffices. -/
abbrev PostRecord := Nat

/-- A JavaScript value thrown by the fetch service: either an `Error`
instance carrying a `message`, or any other value with its string
rendering (server.ts line 146 distinguishes the two with `instanceof`). -/
inductive JsThrown where
  | errorObj (message : String)
  | other (stringRep : String)
deriving DecidableEq, Repr

/-- `error instanceof Error ? error.message : String(error)` (line 146). -/
def thrownText : JsThrown → String
  | JsThrown.errorObj m => m
  | JsThrown.other s => s

/-- The two MCP error codes the handler can raise. -/
inductive ErrorCode where
  | MethodNotFound
  | InvalidParams
deriving DecidableEq, Repr

/-- `pagination.currentBatch` of the success envelope (lines 129–133).
`end` is a Lean keyword, hence the field name `end_`. -/
structure CurrentBatch where
  start : Int
  end_ : Int
  size : Int
deriving DecidableEq, Repr

/-- `pagination` of the success envelope (lines 128–136). -/
structure Pagination where
  currentBatch : CurrentBatch
  nextStartFrom : Int
  hasMore : Bool
deriving DecidableEq, Repr

/-- The three ways the call handler can complete: by throwing an
`McpError` (lines 79–82 and 87–90), by returning the JSON success
envelope (lines 122–140), or by returning the completed-but-errored
(`isError: true`) soft-failure response (lines 142–150). -/
inductive HandlerResult where
  | thrownMcpError (code : ErrorCode) (message : String)
  | success (posts : List PostRecord) (pagination : Pagination)
  | softError (text : String)
deriving DecidableEq, Repr

/-- The fetch service (`InstagramService.fetchPosts`) as the handler sees
it: given username, the raw `limit` and `startFrom` fields, it returns a
list of posts or throws a value.  (The progress callback argument is
modelled separately by `progressCallback`; it does not influence the
returned value.) -/
abbrev FetchService := String → Option JsVal → Option JsVal → Except JsThrown (List PostRecord)

/-- The `CallToolRequestSchema` handler (server.ts lines 77–152):
reject unknown tool names with `MethodNotFound`; reject invalid
arguments with `InvalidParams`; otherwise call the fetch service and
either build the pagination envelope or translate a thrown failure into
the `"Instagram error: "` soft-error response. -/
def handleCallTool (toolName : String) (args : JsArgs) (fetchPosts : FetchService) :
    HandlerResult :=
  if toolName ≠ "get_instagram_posts" then
    HandlerResult.thrownMcpError ErrorCode.MethodNotFound ("Unknown tool: " ++ toolName)
  else if isValidFetchArgs args = false then
    HandlerResult.thrownMcpError ErrorCode.InvalidParams "Invalid fetch arguments"
  else
    match fetchPosts (usernameStringOf args) (limitOf args) (startFromOf args) with
    | Except.ok posts =>
      let s := jsOrZero (startFromOf args)
      HandlerResult.success posts
        { currentBatch :=
            { start := s
              end_ := s + posts.length
              size := posts.length }
          nextStartFrom := s + posts.length
          hasMore := posts.length == 3 }
    | Except.error e =>
      HandlerResult.softError ("Instagram error: " ++ thrownText e)

/-- The fetch service call at line 94 is reached exactly when neither of
the two guards (lines 78–83 and 86–91) has thrown: this mirrors the
handler's straight-line control flow and witnesses "the fetch service is
(not) invoked". -/
def reachesFetchService (toolName : String) (args : JsArgs) : Bool :=
  toolName == "get_instagram_posts" && isValidFetchArgs args

/-- The argument passed to the progress callback (server.ts line 98):
either a plain string or a structured `IProgressUpdate`. -/
inductive ProgressMessage where
  | plain (s : String)
  | update (message : String) (progress : Int) (total : Int) (keepAlive : Option Bool)
deriving DecidableEq, Repr

/-- The `params` of an emitted progress notification.  `keepAlive := none`
models the field being absent / `undefined`. -/
structure ProgressParams where
  message : String
  progress : Int
  total : Int
  keepAlive : Option Bool
deriving DecidableEq, Repr

/-- One `server.notification(...)` emission. -/
structure ServerNotification where
  method : String
  params : ProgressParams
deriving DecidableEq, Repr

/-- The progress callback installed by the handler (server.ts lines
98–119): a plain string is forwarded with `progress: 0, total: 0`; a
structured update is forwarded with all its fields verbatim, including
the optional `keepAlive` flag. -/
def progressCallback : ProgressMessage → ServerNotification
  | ProgressMessage.plain m =>
      { method := "progress"
        params := { message := m, progress := 0, total := 0, keepAlive := none } }
  | ProgressMessage.update m p t k =>
      { method := "progress"
        params := { message := m, progress := p, total := t, keepAlive := k } }

/-- Modelled from the spec: the unbounded ("fetch-all") loop of
`InstagramService.fetchPosts`, whose source is not part of the visible
tree (§4.1 of the spec): repeat bounded rounds with a fixed per-round
batch size of 3, advancing the cursor by the number of records actually
returned each round, until a round returns fewer than the per-round
batch size (exhaustion, which subsumes a zero-record round), and
accumulate all records in round order.  The data source is modelled as
the profile's full timeline; the round at cursor `c` yields
`(timeline.drop c).take 3`. -/
def fetchAllRounds (timeline : List PostRecord) (cursor : Nat) : List PostRecord :=
  if ((timeline.drop cursor).take 3).length < 3 then (timeline.drop cursor).take 3
  else (timeline.drop cursor).take 3 ++ fetchAllRounds timeline (cursor + 3)
termination_by timeline.length - cursor
decreasing_by
  rename_i h
  simp only [List.length_take, List.length_drop, not_lt] at h
  omega

/-- Modelled from the spec: the fetch service in unbounded mode, wrapping
`fetchAllRounds` for a fixed timeline; it is only ever called with
`limit = "all"` by the theorems below. -/
def fetchAllService (timeline : List PostRecord) : FetchService :=
  fun _ _ startFrom => Except.ok (fetchAllRounds timeline (jsOrZero startFrom).toNat)

/-- A concrete fetch service that always succeeds with no posts. -/
def okEmptyService : FetchService := fun _ _ _ => Except.ok []

/-- A concrete fetch service that always succeeds with two posts. -/
def twoPostService : FetchService := fun _ _ _ => Except.ok [7, 8]

/-- A concrete fetch service that always succeeds with three posts. -/
def threePostService : FetchService := fun _ _ _ => Except.ok [4, 5, 6]

/-- A concrete fetch service that always throws a session failure. -/
def failingService : FetchService :=
  fun _ _ _ => Except.error (JsThrown.errorObj "No active Instagram session found")

/-- Shared reduction: on the correct tool name and validated object
arguments, the handler runs the fetch service and builds the envelope or
the soft error. -/
theorem handleCallTool_run (u : String) (l sf : Option JsVal)
    (hl : validLimitField l = true) (hsf : validStartFromField sf = true)
    (service : FetchService) :
    handleCallTool "get_instagram_posts" (JsArgs.object (some (JsVal.str u)) l sf) service =
      (match service u l sf with
       | Except.ok posts =>
         HandlerResult.success posts
           { currentBatch :=
               { start := jsOrZero sf
                 end_ := jsOrZero sf + posts.length
                 size := posts.length }
             nextStartFrom := jsOrZero sf + posts.length
             hasMore := posts.length == 3 }
       | Except.error e => HandlerResult.softError ("Instagram error: " ++ thrownText e)) := by
  simp [handleCallTool, isValidFetchArgs, validUsernameField, hl, hsf,
    usernameStringOf, usernameOf, limitOf, startFromOf]

/-- C1: for every successful call to `get_instagram_posts` with a bounded
numeric limit, the returned pagination field `hasMore` is `true` iff the
call returned exactly 3 post records. -/
theorem bounded_hasMore_iff_three_posts
    (u : String) (n : Int) (sf : Option JsVal) (hsf : validStartFromField sf = true)
    (service : FetchService) (posts : List PostRecord)
    (hfetch : service u (some (JsVal.num n)) sf = Except.ok posts) :
    ∃ pag : Pagination,
      handleCallTool "get_instagram_posts"
          (JsArgs.object (some (JsVal.str u)) (some (JsVal.num n)) sf) service =
        HandlerResult.success posts pag ∧
      (pag.hasMore = true ↔ posts.length = 3) := by
  rw [handleCallTool_run u (some (JsVal.num n)) sf rfl hsf service, hfetch]
  exact ⟨_, rfl, by simp⟩

/-- Witness for C1: limit 2, extractor returning 3 posts, `hasMore` true. -/
theorem bounded_hasMore_iff_three_posts_witness :
    ∃ pag : Pagination,
      handleCallTool "get_instagram_posts"
          (JsArgs.object (some (JsVal.str "alice")) (some (JsVal.num 2)) (some (JsVal.num 5)))
          threePostService =
        HandlerResult.success [4, 5, 6] pag ∧
      (pag.hasMore = true ↔ ([4, 5, 6] : List PostRecord).length = 3) :=
  bounded_hasMore_iff_three_posts "alice" 2 (some (JsVal.num 5)) rfl threePostService [4, 5, 6] rfl

/-- C2: for every successful call returning posts `p` with starting
cursor `s` (`args.startFrom`, or `0` when absent), the envelope satisfies
`currentBatch.start = s`, `currentBatch.size = length p`,
`currentBatch.end = s + length p` and `nextStartFrom = currentBatch.end`. -/
theorem pagination_envelope_arithmetic
    (u : String) (l sf : Option JsVal)
    (hl : validLimitField l = true) (hsf : validStartFromField sf = true)
    (service : FetchService) (posts : List PostRecord)
    (hfetch : service u l sf = Except.ok posts) :
    ∃ pag : Pagination,
      handleCallTool "get_instagram_posts" (JsArgs.object (some (JsVal.str u)) l sf) service =
        HandlerResult.success posts pag ∧
      pag.currentBatch.start = jsOrZero sf ∧
      pag.currentBatch.size = posts.length ∧
      pag.currentBatch.end_ = jsOrZero sf + posts.length ∧
      pag.nextStartFrom = pag.currentBatch.end_ := by
  rw [handleCallTool_run u l sf hl hsf service, hfetch]
  exact ⟨_, rfl, rfl, rfl, rfl, rfl⟩

/-- Witness for C2: the spec's worked example, `limit 2`, `startFrom 5`,
extractor returning 2 records. -/
theorem pagination_envelope_arithmetic_witness :
    ∃ pag : Pagination,
      handleCallTool "get_instagram_posts"
          (JsArgs.object (some (JsVal.str "alice")) (some (JsVal.num 2)) (some (JsVal.num 5)))
          twoPostService =
        HandlerResult.success [7, 8] pag ∧
      pag.currentBatch.start = jsOrZero (some (JsVal.num 5)) ∧
      pag.currentBatch.size = ([7, 8] : List PostRecord).length ∧
      pag.currentBatch.end_ = jsOrZero (some (JsVal.num 5)) + ([7, 8] : List PostRecord).length ∧
      pag.nextStartFrom = pag.currentBatch.end_ :=
  pagination_envelope_arithmetic "alice" (some (JsVal.num 2)) (some (JsVal.num 5)) rfl rfl
    twoPostService [7, 8] rfl

/-- C5: every failure thrown by the fetch service is returned as a
completed soft-error response whose text is the literal prefix
`"Instagram error: "` followed by the failure's message, and the handler
never propagates the failure as a thrown (unhandled) error. -/
theorem fetch_failure_becomes_soft_error
    (u : String) (l sf : Option JsVal)
    (hl : validLimitField l = true) (hsf : validStartFromField sf = true)
    (service : FetchService) (e : JsThrown)
    (hfetch : service u l sf = Except.error e) :
    handleCallTool "get_instagram_posts" (JsArgs.object (some (JsVal.str u)) l sf) service =
      HandlerResult.softError ("Instagram error: " ++ thrownText e) ∧
    ∀ c m, handleCallTool "get_instagram_posts"
        (JsArgs.object (some (JsVal.str u)) l sf) service ≠
      HandlerResult.thrownMcpError c m := by
  have h := handleCallTool_run u l sf hl hsf service
  rw [hfetch] at h
  exact ⟨h, fun c m hc => by rw [h] at hc; cases hc⟩

/-- Witness for C5: a session-unavailable failure yields the prefixed
soft error. -/
theorem fetch_failure_becomes_soft_error_witness :
    handleCallTool "get_instagram_posts"
        (JsArgs.object (some (JsVal.str "alice")) none none) failingService =
      HandlerResult.softError
        ("Instagram error: " ++ thrownText (JsThrown.errorObj "No active Instagram session found")) ∧
    ∀ c m, handleCallTool "get_instagram_posts"
        (JsArgs.object (some (JsVal.str "alice")) none none) failingService ≠
      HandlerResult.thrownMcpError c m :=
  fetch_failure_becomes_soft_error "alice" none none rfl rfl failingService
    (JsThrown.errorObj "No active Instagram session found") rfl

/-- C7: when `startFrom` is absent, the engine behaves as if it were `0`:
`currentBatch.start = 0`, and `currentBatch.end` and `nextStartFrom`
equal the number of returned posts. -/
theorem absent_startFrom_defaults_to_zero
    (u : String) (l : Option JsVal) (hl : validLimitField l = true)
    (service : FetchService) (posts : List PostRecord)
    (hfetch : service u l none = Except.ok posts) :
    ∃ pag : Pagination,
      handleCallTool "get_instagram_posts" (JsArgs.object (some (JsVal.str u)) l none) service =
        HandlerResult.success posts pag ∧
      pag.currentBatch.start = 0 ∧
      pag.currentBatch.end_ = posts.length ∧
      pag.nextStartFrom = posts.length := by
  rw [handleCallTool_run u l none hl rfl service, hfetch]
  exact ⟨_, rfl, rfl, by simp [jsOrZero], by simp [jsOrZero]⟩

/-- Witness for C7: no `startFrom`, two posts returned, cursor fields 0/2/2. -/
theorem absent_startFrom_defaults_to_zero_witness :
    ∃ pag : Pagination,
      handleCallTool "get_instagram_posts"
          (JsArgs.object (some (JsVal.str "alice")) (some (JsVal.num 2)) none) twoPostService =
        HandlerResult.success [7, 8] pag ∧
      pag.currentBatch.start = 0 ∧
      pag.currentBatch.end_ = ([7, 8] : List PostRecord).length ∧
      pag.nextStartFrom = ([7, 8] : List PostRecord).length :=
  absent_startFrom_defaults_to_zero "alice" (some (JsVal.num 2)) rfl twoPostService [7, 8] rfl

/-- C6: a plain string message `m` is forwarded as a notification with
params `{message: m, progress: 0, total: 0}`, and a structured update is
forwarded with all of its fields verbatim, including the optional
`keepAlive` flag. -/
theorem progress_callback_forwards_messages
    (m : String) (p t : Int) (k : Option Bool) :
    progressCallback (ProgressMessage.plain m) =
      { method := "progress"
        params := { message := m, progress := 0, total := 0, keepAlive := none } } ∧
    progressCallback (ProgressMessage.update m p t k) =
      { method := "progress"
        params := { message := m, progress := p, total := t, keepAlive := k } } :=
  ⟨rfl, rfl⟩

/-- Arguments with the out-of-range numeric limit 5. -/
def limitFiveArgs : JsArgs :=
  JsArgs.object (some (JsVal.str "alice")) (some (JsVal.num 5)) none

/-- Counterexample to C3: a numeric limit of 5 — outside the integer
range `[1, 3]` — is NOT rejected: validation accepts it, the fetch
service is reached, and the call completes as a success envelope rather
than an `InvalidParams` error. -/
theorem out_of_range_limit_not_rejected :
    isValidFetchArgs limitFiveArgs = true ∧
    reachesFetchService "get_instagram_posts" limitFiveArgs = true ∧
    handleCallTool "get_instagram_posts" limitFiveArgs okEmptyService =
      HandlerResult.success []
        { currentBatch := { start := 0, end_ := 0, size := 0 }
          nextStartFrom := 0
          hasMore := false } := by
  refine ⟨rfl, rfl, ?_⟩
  rw [show limitFiveArgs = JsArgs.object (some (JsVal.str "alice")) (some (JsVal.num 5)) none from rfl,
    handleCallTool_run "alice" (some (JsVal.num 5)) none rfl rfl okEmptyService]
  rfl

/-- C3 (amended): any numeric limit — in or out of `[1, 3]` — passes the
adapter's validation: the call reaches the fetch service and is never
rejected with a thrown MCP error; only the value's type is checked. -/
theorem numeric_limit_always_passes_validation
    (u : String) (n : Int) (sf : Option JsVal) (hsf : validStartFromField sf = true)
    (service : FetchService) :
    reachesFetchService "get_instagram_posts"
        (JsArgs.object (some (JsVal.str u)) (some (JsVal.num n)) sf) = true ∧
    ∀ c m, handleCallTool "get_instagram_posts"
        (JsArgs.object (some (JsVal.str u)) (some (JsVal.num n)) sf) service ≠
      HandlerResult.thrownMcpError c m := by
  refine ⟨?_, fun c m hc => ?_⟩
  · simp [reachesFetchService, isValidFetchArgs, validUsernameField, validLimitField, hsf]
  · rw [handleCallTool_run u (some (JsVal.num n)) sf rfl hsf service] at hc
    cases hfetch : service u (some (JsVal.num n)) sf with
    | ok posts => rw [hfetch] at hc; cases hc
    | error e => rw [hfetch] at hc; cases hc

/-- Witness for C3 (amended): limit -1 is also accepted and runs. -/
theorem numeric_limit_always_passes_validation_witness :
    reachesFetchService "get_instagram_posts"
        (JsArgs.object (some (JsVal.str "alice")) (some (JsVal.num (-1))) none) = true ∧
    ∀ c m, handleCallTool "get_instagram_posts"
        (JsArgs.object (some (JsVal.str "alice")) (some (JsVal.num (-1))) none) okEmptyService ≠
      HandlerResult.thrownMcpError c m :=
  numeric_limit_always_passes_validation "alice" (-1) none rfl okEmptyService

/-- C4: wrongly-typed arguments — `username` missing or not a string,
`limit` present but neither a number nor the literal `"all"`, or
`startFrom` present but not a number — fail with `InvalidParams` and
never reach the fetch service. -/
theorem wrongly_typed_args_rejected
    (u l sf : Option JsVal) (service : FetchService)
    (hbad : validUsernameField u = false ∨ validLimitField l = false ∨
      validStartFromField sf = false) :
    handleCallTool "get_instagram_posts" (JsArgs.object u l sf) service =
      HandlerResult.thrownMcpError ErrorCode.InvalidParams "Invalid fetch arguments" ∧
    reachesFetchService "get_instagram_posts" (JsArgs.object u l sf) = false := by
  have hval : isValidFetchArgs (JsArgs.object u l sf) = false := by
    rcases hbad with h | h | h <;> simp [isValidFetchArgs, h]
  exact ⟨by simp [handleCallTool, hval], by simp [reachesFetchService, hval]⟩

/-- Witness for C4: `username` absent (and `limit` a `startFrom`-style
string) is rejected with `InvalidParams` and the fetch service is not
reached. -/
theorem wrongly_typed_args_rejected_witness :
    handleCallTool "get_instagram_posts"
        (JsArgs.object none (some (JsVal.str "many")) (some (JsVal.str "0"))) okEmptyService =
      HandlerResult.thrownMcpError ErrorCode.InvalidParams "Invalid fetch arguments" ∧
    reachesFetchService "get_instagram_posts"
        (JsArgs.object none (some (JsVal.str "many")) (some (JsVal.str "0"))) = false :=
  wrongly_typed_args_rejected none (some (JsVal.str "many")) (some (JsVal.str "0"))
    okEmptyService (Or.inl rfl)

/-- C8: a call whose tool name is not `get_instagram_posts` fails with
`MethodNotFound` — for every argument object, valid or not, so before
any argument validation — and the fetch service is never reached. -/
theorem unknown_tool_method_not_found
    (toolName : String) (hname : toolName ≠ "get_instagram_posts")
    (args : JsArgs) (service : FetchService) :
    handleCallTool toolName args service =
      HandlerResult.thrownMcpError ErrorCode.MethodNotFound ("Unknown tool: " ++ toolName) ∧
    reachesFetchService toolName args = false := by
  exact ⟨by simp [handleCallTool, hname], by simp [reachesFetchService, hname]⟩

/-- Witness for C8: a call to `get_tiktok_posts` with non-object
arguments is `MethodNotFound`, not `InvalidParams`. -/
theorem unknown_tool_method_not_found_witness :
    handleCallTool "get_tiktok_posts" JsArgs.notObject okEmptyService =
      HandlerResult.thrownMcpError ErrorCode.MethodNotFound ("Unknown tool: " ++ "get_tiktok_posts") ∧
    reachesFetchService "get_tiktok_posts" JsArgs.notObject = false :=
  unknown_tool_method_not_found "get_tiktok_posts" (by decide) JsArgs.notObject okEmptyService

/-- Arguments whose username is the empty string. -/
def emptyUsernameArgs : JsArgs := JsArgs.object (some (JsVal.str "")) none none

/-- Counterexample to C9: validation does NOT require the username to be
non-empty — the empty-string username is accepted. -/
theorem empty_username_accepted :
    ¬ (∀ args : JsArgs, isValidFetchArgs args = true →
        ∀ s : String, usernameOf args = some (JsVal.str s) → s ≠ "") := by
  intro h
  exact h emptyUsernameArgs rfl "" rfl rfl

/-- C9 (amended): every argument object accepted by the validation has a
string username — possibly empty; only the type, not non-emptiness, is
enforced. -/
theorem accepted_username_is_string
    (args : JsArgs) (h : isValidFetchArgs args = true) :
    ∃ s : String, usernameOf args = some (JsVal.str s) := by
  cases args with
  | notObject => simp [isValidFetchArgs] at h
  | object u l sf =>
    simp only [isValidFetchArgs, Bool.and_eq_true] at h
    obtain ⟨⟨hu, -⟩, -⟩ := h
    cases u with
    | none => simp [validUsernameField] at hu
    | some v =>
      cases v with
      | str s => exact ⟨s, rfl⟩
      | num n => simp [validUsernameField] at hu
      | boolean b => simp [validUsernameField] at hu
      | null => simp [validUsernameField] at hu

/-- Witness for C9 (amended): the accepted empty-string username. -/
theorem accepted_username_is_string_witness :
    ∃ s : String, usernameOf emptyUsernameArgs = some (JsVal.str s) :=
  accepted_username_is_string emptyUsernameArgs rfl

/-- C10: with `limit = "all"` (the fetch service accumulating rounds per
the spec's unbounded loop), `hasMore` is computed by the same test as in
bounded mode: it is `true` iff the total accumulated record count equals
exactly 3 — even though the unbounded loop only returns on exhaustion. -/
theorem unbounded_hasMore_same_test
    (timeline : List PostRecord) (u : String) (sf : Option JsVal)
    (hsf : validStartFromField sf = true) :
    ∃ pag : Pagination,
      handleCallTool "get_instagram_posts"
          (JsArgs.object (some (JsVal.str u)) (some (JsVal.str "all")) sf)
          (fetchAllService timeline) =
        HandlerResult.success (fetchAllRounds timeline (jsOrZero sf).toNat) pag ∧
      (pag.hasMore = true ↔ (fetchAllRounds timeline (jsOrZero sf).toNat).length = 3) := by
  rw [handleCallTool_run u (some (JsVal.str "all")) sf rfl hsf (fetchAllService timeline)]
  exact ⟨_, rfl, by simp⟩

/-- Witness for C10: a timeline of exactly 3 posts is fully exhausted by
the loop, yet `hasMore` still reports `true` (the known heuristic false
positive at exact multiples of the batch size). -/
theorem unbounded_hasMore_same_test_witness :
    ∃ pag : Pagination,
      handleCallTool "get_instagram_posts"
          (JsArgs.object (some (JsVal.str "bob")) (some (JsVal.str "all")) none)
          (fetchAllService [0, 1, 2]) =
        HandlerResult.success (fetchAllRounds [0, 1, 2] (jsOrZero none).toNat) pag ∧
      (pag.hasMore = true ↔ (fetchAllRounds [0, 1, 2] (jsOrZero none).toNat).length = 3) :=
  unbounded_hasMore_same_test [0, 1, 2] "bob" none rfl

end InstagramMCP
